import Mathlib

/-!
Verification development for the docx-to-pdf conversion service.

The embedding models the two source files of the repository:
`app.py` (Flask request handlers and the shared conversion dispatcher)
and `docx_pdf_converter.py` (the reusable converter module).

Modelling conventions:
- The filesystem is the set of existing file paths, as a list of strings.
- The external LibreOffice process (backend B) is an oracle `LoBehavior`
  describing one run: wall-clock runtime, exit code, stderr text and
  whether it actually creates its output file.  LibreOffice writes its
  output to the output directory under the input basename with a pdf
  extension, as stated in the source comments.
- Python exceptions become an explicit error type `PyExc`; fallible code
  returns `Except PyExc` values paired with the updated filesystem.
- The service is embedded for the Linux/Docker deployment, where the
  import-time platform probe yields IS_WINDOWS = false and
  USE_DOCX2PDF = false, so the COM branch of the dispatcher is dead code.
- `werkzeug.utils.secure_filename` is an external library call; it is
  modelled from its POSIX behaviour restricted to ASCII filenames, where
  the unicode NFKD-normalisation and ascii-encoding steps are the
  identity.  Character case folding is modelled with the ASCII
  `Char.toLower`.
-/

namespace DocToPdf

/-- Filesystem model: the list of paths at which a file currently exists. -/
abbrev FS := List String

/-- Model of os.path.exists. -/
def pathExists (p : String) (fs : FS) : Bool := fs.contains p

/-- Creating (or overwriting) a file at a path, as done by file.save and by
the converter process. -/
def savePath (p : String) (fs : FS) : FS := if p ∈ fs then fs else p :: fs

/-- Model of os.remove: the path no longer exists afterwards. -/
def removePath (p : String) (fs : FS) : FS := fs.filter (fun q => q ≠ p)

/-- Model of os.rename src dst: src disappears, dst exists. -/
def renamePath (src dst : String) (fs : FS) : FS := savePath dst (removePath src fs)

/-- Characters after the last occurrence of sep; the whole list when sep is
absent.  Models the python idiom s[s.rfind(sep)+1:]. -/
def afterLastChar (sep : Char) (l : List Char) : List Char :=
  (l.reverse.takeWhile (fun c => c != sep)).reverse

/-- Characters strictly before the last occurrence of sep; empty when sep is
absent.  Models the python idiom s[:s.rfind(sep)]. -/
def beforeLastChar (sep : Char) (l : List Char) : List Char :=
  ((l.reverse.dropWhile (fun c => c != sep)).drop 1).reverse

/-- ASCII model of python str.lower applied to a character list. -/
def pyLower (l : List Char) : List Char := l.map Char.toLower

/-- Model of pathlib PurePath stem on a final path component: the component
without its suffix, where a suffix exists only when the last dot has index i
with 0 < i < len - 1 (cpython pathlib implementation). -/
def pyStem (name : List Char) : List Char :=
  if name.contains '.' then
    let a := beforeLastChar '.' name
    let b := afterLastChar '.' name
    if a ≠ [] ∧ b ≠ [] then a else name
  else name

/-- String wrapper for `pyStem`. -/
def pyStemStr (s : String) : String := String.mk (pyStem s.data)

/-- Model of posixpath basename. -/
def pyBasename (p : String) : String := String.mk (afterLastChar '/' p.data)

/-- Model of posixpath dirname: everything up to and including the last
slash, with trailing slashes stripped unless the head is all slashes. -/
def pyDirname (p : String) : String :=
  if p.data.contains '/' then
    let head := beforeLastChar '/' p.data ++ ['/']
    if head.all (fun c => c == '/') then String.mk head
    else String.mk (head.reverse.dropWhile (fun c => c == '/')).reverse
  else ""

/-- Model of posixpath join of two components. -/
def pyJoin (a b : String) : String :=
  if b.data.head? = some '/' then b
  else if a = "" ∨ a.data.getLast? = some '/' then a ++ b
  else a ++ "/" ++ b

/-- Whitespace characters recognised by python str.split (no arguments). -/
def pyIsSpace (c : Char) : Bool :=
  c == ' ' || c == '\t' || c == '\n' || c == '\r' || c == '\x0b' || c == '\x0c'

/-- Characters kept by the werkzeug filename regex [A-Za-z0-9_.-]. -/
def asciiKeep (c : Char) : Bool :=
  ('A' ≤ c && c ≤ 'Z') || ('a' ≤ c && c ≤ 'z') || ('0' ≤ c && c ≤ '9') ||
    c == '_' || c == '.' || c == '-'

/-- Accumulator-style splitter implementing python str.split() on
whitespace: maximal non-whitespace runs, no empty words. -/
def splitWsAux : List Char → List Char → List (List Char)
  | [], acc => if acc = [] then [] else [acc.reverse]
  | c :: rest, acc =>
    if pyIsSpace c then
      if acc = [] then splitWsAux rest []
      else acc.reverse :: splitWsAux rest []
    else splitWsAux rest (c :: acc)

/-- Model of python str.split() on whitespace. -/
def pySplitWs (l : List Char) : List (List Char) := splitWsAux l []

/-- Model of the python idiom sep.join(words) for a one-character
separator, here the underscore used by secure_filename. -/
def joinUnderscore : List (List Char) → List Char
  | [] => []
  | [w] => w
  | w :: ws => w ++ '_' :: joinUnderscore ws

/-- Model of python str.strip(chars): remove the given characters from both
ends. -/
def pyStrip (bad : List Char) (l : List Char) : List Char :=
  ((l.dropWhile (fun c => bad.contains c)).reverse.dropWhile
    (fun c => bad.contains c)).reverse

/-- Model of werkzeug.utils.secure_filename (external dependency called at
app.py lines 104 and 166), POSIX branch, restricted to ASCII input where
the NFKD-normalisation and ascii-encoding steps are the identity: replace
the path separator by a space, collapse whitespace runs to single
underscores, drop characters outside [A-Za-z0-9_.-], then strip dots and
underscores from both ends.  The Windows device-name special case does not
apply on POSIX. -/
def secure_filename (filename : String) : String :=
  let l := filename.data
  let l := l.map (fun c => if c == '/' then ' ' else c)
  let l := joinUnderscore (pySplitWs l)
  let l := l.filter asciiKeep
  let l := pyStrip ['.', '_'] l
  String.mk l

/-- Whether a name ends in .docx up to ASCII case, the property the spec
asserts of sanitized filenames. -/
def endsInDocxCI (s : String) : Bool :=
  List.isSuffixOf (".docx".data) (pyLower s.data)

/-- Python exceptions relevant to the conversion paths. -/
inductive PyExc where
  | timeoutExpired
  | exception (msg : String)
  | fileNotFound (msg : String)
deriving DecidableEq, Repr

/-- Oracle describing one run of the external LibreOffice process:
how long it would take, its exit code, its stderr text, and whether it
actually creates the output pdf in the output directory. -/
structure LoBehavior where
  runtime : Nat
  returncode : Int
  stderr : String
  producesOutput : Bool
deriving DecidableEq, Repr

/-- Model of subprocess.run applied to the fixed LibreOffice argument list
(headless, convert-to pdf, outdir, input) with a wall-clock timeout in
seconds.  A run that exceeds the timeout raises TimeoutExpired; otherwise
the run completes with the oracle exit code and stderr, and, when the
oracle says so, creates the pdf named after the input basename inside the
output directory (source comment: LibreOffice creates PDF with same base
name as input). -/
def subprocessRunLibreoffice (b : LoBehavior) (outdir inputPath : String)
    (timeoutSec : Nat) (fs : FS) : Except PyExc (Int × String) × FS :=
  if timeoutSec < b.runtime then (Except.error PyExc.timeoutExpired, fs)
  else
    let produced := pyJoin outdir (pyStemStr (pyBasename inputPath) ++ ".pdf")
    (Except.ok (b.returncode, b.stderr),
      if b.producesOutput then savePath produced fs else fs)

namespace App

/-- Result of the import-time platform probe, app.py line 11, for the
Linux/Docker deployment the service targets. -/
def IS_WINDOWS : Bool := false

/-- Result of the import-time docx2pdf availability probe, app.py
lines 13-21: always false off Windows. -/
def USE_DOCX2PDF : Bool := false

/-- The extension allow-list, app.py line 28. -/
def ALLOWED_EXTENSIONS : List String := ["docx"]

/-- Model of app.config UPLOAD_FOLDER = tempfile.gettempdir(). -/
def UPLOAD_FOLDER : String := "/tmp"

/-- Model of allowed_file, app.py lines 30-31: the name contains a dot and
the text after the last dot, lowercased, is in the allow-list.  The python
rsplit call with maxsplit 1 selects the text after the last dot; its result
is only read under the short-circuited containment guard. -/
def allowed_file (filename : String) : Bool :=
  filename.data.contains '.' &&
    ALLOWED_EXTENSIONS.contains (String.mk (pyLower (afterLastChar '.' filename.data)))

/-- The path at which LibreOffice places its output, app.py lines 66-69:
the directory of the requested pdf path joined with the input basename
carrying a pdf extension. -/
def expected_pdf (docx_path pdf_path : String) : String :=
  pyJoin (pyDirname pdf_path) (pyStemStr (pyBasename docx_path) ++ ".pdf")

/-- Model of perform_conversion, app.py lines 33-71.  Under the Linux
embedding the COM branch is dead (IS_WINDOWS and USE_DOCX2PDF are false);
the live branch runs LibreOffice with a 120 second timeout, raises on a
non-zero exit code, and renames the produced file (named after the input
basename) to the requested pdf path when the two differ and the produced
file exists.  Note the source performs no check that the pdf exists after
a zero exit code. -/
def perform_conversion (b : LoBehavior) (docx_path pdf_path : String)
    (fs : FS) : Except PyExc Unit × FS :=
  if IS_WINDOWS && USE_DOCX2PDF then
    -- COM branch, app.py lines 44-50: unreachable in the Linux embedding.
    (Except.ok (), fs)
  else
    match subprocessRunLibreoffice b (pyDirname pdf_path) docx_path 120 fs with
    | (Except.error e, fs1) => (Except.error e, fs1)
    | (Except.ok (rc, stderrText), fs1) =>
      if rc ≠ 0 then
        (Except.error (PyExc.exception ("LibreOffice conversion failed: " ++ stderrText)), fs1)
      else
        if expected_pdf docx_path pdf_path ≠ pdf_path ∧
            pathExists (expected_pdf docx_path pdf_path) fs1 then
          (Except.ok (), renamePath (expected_pdf docx_path pdf_path) pdf_path fs1)
        else (Except.ok (), fs1)

/-- A file field of a multipart request: werkzeug FileStorage, of which the
handlers read only the filename. -/
structure UploadedFile where
  filename : String
deriving DecidableEq, Repr

/-- The part of a Flask request the handlers read: the multipart file
fields, keyed by field name. -/
structure Request where
  files : List (String × UploadedFile)
deriving DecidableEq, Repr

/-- Responses of the JSON API endpoint: either a pdf attachment streamed
with send_file (HTTP 200) or a JSON error body with a status code. -/
inductive ApiResponse where
  | pdfAttachment (downloadName mimetype : String)
  | jsonError (error : String) (statusCode : Nat)
deriving DecidableEq, Repr

/-- HTTP status of an API response; send_file answers 200. -/
def ApiResponse.status : ApiResponse → Nat
  | ApiResponse.pdfAttachment _ _ => 200
  | ApiResponse.jsonError _ s => s

/-- Responses of the interactive form endpoint: a redirect to the index
page carrying a flash message, or a file download. -/
inductive WebResponse where
  | redirectFlash (msg : String)
  | fileDownload (downloadName mimetype : String)
deriving DecidableEq, Repr

/-- Model of str(e) for the exceptions the handlers catch broadly.  The
TimeoutExpired rendering abstracts the command list python would embed. -/
def pyExcStr : PyExc → String
  | PyExc.timeoutExpired => "Command libreoffice timed out after 120 seconds"
  | PyExc.exception m => m
  | PyExc.fileNotFound m => m

/-- Message of the FileNotFoundError raised when opening or sending a
missing file. -/
def fileNotFoundMsg (p : String) : String :=
  "[Errno 2] No such file or directory: " ++ p

/-- Staged input path of the interactive endpoint, app.py line 107. -/
def web_docx_path (filename : String) : String := pyJoin UPLOAD_FOLDER filename

/-- Output pdf path of the interactive endpoint, app.py lines 108-109. -/
def web_pdf_path (filename : String) : String :=
  pyJoin UPLOAD_FOLDER (pyStemStr filename ++ ".pdf")

/-- Staged input path of the API endpoint, app.py line 168: a unique
prefix joined to the sanitized name. -/
def api_docx_path (unique_id filename : String) : String :=
  pyJoin UPLOAD_FOLDER (unique_id ++ "_" ++ filename)

/-- Derived pdf attachment name, app.py line 169. -/
def api_pdf_filename (filename : String) : String := pyStemStr filename ++ ".pdf"

/-- Output pdf path of the API endpoint, app.py line 170. -/
def api_pdf_path (unique_id filename : String) : String :=
  pyJoin UPLOAD_FOLDER (unique_id ++ "_" ++ api_pdf_filename filename)

/-- Model of one python statement: try: if os.path.exists(p): os.remove(p)
except: pass.  The oracle delFail tells which removals raise; a raised
removal leaves the file in place and is swallowed. -/
def tryRemove (delFail : String → Bool) (p : String) (fs : FS) : FS :=
  if pathExists p fs then (if delFail p then fs else removePath p fs) else fs

/-- Model of the API finally block, app.py lines 193-200: each of the two
paths gets its own try/except, so a failed removal of the first does not
stop the second. -/
def apiCleanup (delFail : String → Bool) (docx_path pdf_path : String) (fs : FS) : FS :=
  tryRemove delFail pdf_path (tryRemove delFail docx_path fs)

/-- Model of the interactive finally block, app.py lines 130-138: both
removals share one try/except, so an error while removing the input path
aborts the block (swallowed) before the pdf removal runs. -/
def webCleanup (delFail : String → Bool) (docx_path pdf_path : String) (fs : FS) : FS :=
  if pathExists docx_path fs then
    if delFail docx_path then fs
    else
      let fs1 := removePath docx_path fs
      if pathExists pdf_path fs1 then
        (if delFail pdf_path then fs1 else removePath pdf_path fs1)
      else fs1
  else
    if pathExists pdf_path fs then
      (if delFail pdf_path then fs else removePath pdf_path fs)
    else fs

/-- Body of the health check response, app.py lines 83-87.  The timestamp
field renders the current instant; distinct instants render to distinct
strings, modelled by a natural-number clock shown in decimal. -/
structure HealthBody where
  status : String
  service : String
  timestamp : String
deriving DecidableEq, Repr

/-- Model of health_check, app.py lines 77-87: a fixed status and service
together with the current timestamp, HTTP 200.  The handler consults no
backend or filesystem state, which the signature makes explicit. -/
def health_check (now : Nat) : HealthBody × Nat :=
  ({ status := "healthy",
     service := "docx-to-pdf-converter",
     timestamp := toString now }, 200)

/-- Model of the interactive route convert_docx_to_pdf, app.py lines
89-142.  Validation short-circuits with redirect-and-flash responses; an
accepted upload is staged under its sanitized name, converted, and either
downloaded or reported via flash, with the shared finally block cleaning
both temp paths on every exit of the try. -/
def convert_docx_to_pdf (b : LoBehavior) (delFail : String → Bool)
    (req : Request) (fs : FS) : WebResponse × FS :=
  match List.lookup "file" req.files with
  | none => (WebResponse.redirectFlash "No file uploaded", fs)
  | some file =>
    if file.filename == "" then (WebResponse.redirectFlash "No file selected", fs)
    else if allowed_file file.filename then
      let filename := secure_filename file.filename
      let docx_path := web_docx_path filename
      let pdf_filename := pyStemStr filename ++ ".pdf"
      let pdf_path := web_pdf_path filename
      let fs1 := savePath docx_path fs
      match perform_conversion b docx_path pdf_path fs1 with
      | (Except.error e, fs2) =>
        (WebResponse.redirectFlash ("Error converting file: " ++ pyExcStr e),
          webCleanup delFail docx_path pdf_path fs2)
      | (Except.ok _, fs2) =>
        if pathExists pdf_path fs2 then
          (WebResponse.fileDownload pdf_filename "application/pdf",
            webCleanup delFail docx_path pdf_path fs2)
        else
          -- send_file raises FileNotFoundError, caught by the broad except
          (WebResponse.redirectFlash
              ("Error converting file: " ++ fileNotFoundMsg pdf_path),
            webCleanup delFail docx_path pdf_path fs2)
    else (WebResponse.redirectFlash "Invalid file type. Please upload a .docx file", fs)

/-- Model of the API route api_convert_docx_to_pdf, app.py lines 144-200.
Validation short-circuits with JSON errors; an accepted upload is staged
under a unique prefix, converted, read back and streamed, with the finally
block cleaning both temp paths on every exit of the try. -/
def api_convert_docx_to_pdf (b : LoBehavior) (delFail : String → Bool)
    (unique_id : String) (req : Request) (fs : FS) : ApiResponse × FS :=
  match List.lookup "file" req.files with
  | none => (ApiResponse.jsonError "No file provided" 400, fs)
  | some file =>
    if file.filename == "" || !allowed_file file.filename then
      (ApiResponse.jsonError "Invalid file type. Only .docx files are accepted" 400, fs)
    else
      let filename := secure_filename file.filename
      let docx_path := api_docx_path unique_id filename
      let pdf_filename := api_pdf_filename filename
      let pdf_path := api_pdf_path unique_id filename
      let fs1 := savePath docx_path fs
      match perform_conversion b docx_path pdf_path fs1 with
      | (Except.error PyExc.timeoutExpired, fs2) =>
        (ApiResponse.jsonError "Conversion timeout - file may be too large or complex" 500,
          apiCleanup delFail docx_path pdf_path fs2)
      | (Except.error (PyExc.exception m), fs2) =>
        (ApiResponse.jsonError ("Conversion failed: " ++ m) 500,
          apiCleanup delFail docx_path pdf_path fs2)
      | (Except.error (PyExc.fileNotFound m), fs2) =>
        (ApiResponse.jsonError ("Conversion failed: " ++ m) 500,
          apiCleanup delFail docx_path pdf_path fs2)
      | (Except.ok _, fs2) =>
        if pathExists pdf_path fs2 then
          (ApiResponse.pdfAttachment pdf_filename "application/pdf",
            apiCleanup delFail docx_path pdf_path fs2)
        else
          -- open(pdf_path) raises FileNotFoundError, caught as Exception
          (ApiResponse.jsonError ("Conversion failed: " ++ fileNotFoundMsg pdf_path) 500,
            apiCleanup delFail docx_path pdf_path fs2)

end App

namespace DocxPdfConverter

/-- Platform probe of the module, docx_pdf_converter.py line 24, for the
Linux deployment. -/
def IS_WINDOWS : Bool := false

/-- The docx2pdf availability probe of the module, lines 26-34. -/
def USE_DOCX2PDF : Bool := false

/-- The output directory the module uses, docx_pdf_converter.py lines
66-71: the directory of the input when none is given.  Directory creation
by os.makedirs is invisible in the file-set filesystem model. -/
def module_outdir (docx_path : String) (output_dir : Option String) : String :=
  match output_dir with
  | none => pyDirname docx_path
  | some d => d

/-- The pdf path the module derives, docx_pdf_converter.py lines 73-76. -/
def module_pdf_path (docx_path : String) (output_dir : Option String) : String :=
  pyJoin (module_outdir docx_path output_dir) (pyStemStr (pyBasename docx_path) ++ ".pdf")

/-- Model of docx_pdf_converter.convert_docx_to_pdf, lines 37-104: check
the input exists, derive the output directory and pdf path, run the
platform converter (LibreOffice with a 120 second timeout on Linux),
raise on a non-zero exit code, and raise a distinct error when the pdf is
missing although the backend reported success; on success return the pdf
path. -/
def convert_docx_to_pdf (b : LoBehavior) (docx_path : String)
    (output_dir : Option String) (fs : FS) : Except PyExc String × FS :=
  if !pathExists docx_path fs then
    (Except.error (PyExc.fileNotFound ("Input file not found: " ++ docx_path)), fs)
  else
    let outdir := module_outdir docx_path output_dir
    let pdf_path := module_pdf_path docx_path output_dir
    if IS_WINDOWS && USE_DOCX2PDF then
      -- COM branch, lines 79-85: unreachable in the Linux embedding.
      (Except.ok pdf_path, fs)
    else
      match subprocessRunLibreoffice b outdir docx_path 120 fs with
      | (Except.error e, fs1) => (Except.error e, fs1)
      | (Except.ok (rc, stderrText), fs1) =>
        if rc ≠ 0 then
          (Except.error (PyExc.exception ("LibreOffice conversion failed: " ++ stderrText)), fs1)
        else if !pathExists pdf_path fs1 then
          (Except.error (PyExc.exception ("PDF file was not created: " ++ pdf_path)), fs1)
        else (Except.ok pdf_path, fs1)

end DocxPdfConverter

/-! ## Lemmas about splitting at the last occurrence of a character -/

lemma afterLastChar_eq (sep : Char) (a b : List Char) (hb : sep ∉ b) :
    afterLastChar sep (a ++ sep :: b) = b := by
  unfold afterLastChar
  have hrev : (a ++ sep :: b).reverse = b.reverse ++ sep :: a.reverse := by
    simp
  rw [hrev, List.takeWhile_append_of_pos]
  · rw [List.takeWhile_cons]
    simp
  · intro x hx
    have hxb : x ∈ b := List.mem_reverse.mp hx
    have : x ≠ sep := fun h => hb (h ▸ hxb)
    simpa using this

lemma beforeLastChar_eq (sep : Char) (a b : List Char) (hb : sep ∉ b) :
    beforeLastChar sep (a ++ sep :: b) = a := by
  unfold beforeLastChar
  have hrev : (a ++ sep :: b).reverse = b.reverse ++ sep :: a.reverse := by
    simp
  rw [hrev, List.dropWhile_append_of_pos]
  · rw [List.dropWhile_cons]
    simp
  · intro x hx
    have hxb : x ∈ b := List.mem_reverse.mp hx
    have : x ≠ sep := fun h => hb (h ▸ hxb)
    simpa using this

lemma exists_last_split (sep : Char) (l : List Char) (h : sep ∈ l) :
    ∃ a b, l = a ++ sep :: b ∧ sep ∉ b := by
  induction l with
  | nil => cases h
  | cons c rest ih =>
    by_cases hr : sep ∈ rest
    · obtain ⟨a, b, hab, hnb⟩ := ih hr
      exact ⟨c :: a, b, by simp [hab], hnb⟩
    · have hc : sep = c := by
        rcases List.mem_cons.mp h with h1 | h2
        · exact h1
        · exact absurd h2 hr
      exact ⟨[], rest, by simp [hc], hr⟩

/-- Characterization of the allow-list check: a name passes exactly when
it has a dot and the text after the last dot lowercases to docx. -/
lemma allowed_file_iff (f : String) :
    App.allowed_file f = true ↔
      ∃ a b, f.data = a ++ '.' :: b ∧ '.' ∉ b ∧ pyLower b = "docx".data := by
  unfold App.allowed_file App.ALLOWED_EXTENSIONS
  constructor
  · intro h
    obtain ⟨hc, hext⟩ := Bool.and_eq_true _ _ ▸ h
    have hmem : '.' ∈ f.data := by
      simpa [List.contains] using hc
    obtain ⟨a, b, hab, hnb⟩ := exists_last_split '.' f.data hmem
    refine ⟨a, b, hab, hnb, ?_⟩
    rw [hab, afterLastChar_eq _ _ _ hnb] at hext
    have hstr : String.mk (pyLower b) = "docx" := by
      simpa [List.contains] using hext
    have := congrArg String.data hstr
    simpa using this
  · rintro ⟨a, b, hab, hnb, hlow⟩
    rw [hab]
    refine (Bool.and_eq_true _ _).symm ▸ ⟨?_, ?_⟩
    · simp [List.contains]
    · rw [afterLastChar_eq _ _ _ hnb, hlow]
      simp [List.contains]

/-! ## Lemmas about secure_filename on accepted names -/

lemma char_toNat_ofNat_valid (n : Nat) (h : n.isValidChar) :
    (Char.ofNat n).toNat = n := by
  rw [Char.ofNat, dif_pos h]
  rfl

/-- Only the two letters x and X lowercase to x under the ASCII folding. -/
lemma toLower_eq_x (c : Char) (h : c.toLower = 'x') : c = 'x' ∨ c = 'X' := by
  unfold Char.toLower at h
  dsimp only at h
  split at h
  · rename_i hcond
    right
    have hval : (c.toNat + 32).isValidChar := by
      left
      omega
    have h2 := congrArg Char.toNat h
    rw [char_toNat_ofNat_valid _ hval] at h2
    have hx : ('x').toNat = 120 := by decide
    have h88 : c.toNat = 88 := by omega
    have hc : Char.ofNat c.toNat = Char.ofNat 88 := by rw [h88]
    rw [Char.ofNat_toNat] at hc
    rw [hc]
  · exact Or.inl h

/-- A name whose lowercasing is docx ends in the letter x or X. -/
lemma ends_x_of_pyLower_docx (b : List Char) (h : pyLower b = "docx".data) :
    ∃ p c, b = p ++ [c] ∧ (c = 'x' ∨ c = 'X') := by
  rcases b with _ | ⟨c1, _ | ⟨c2, _ | ⟨c3, _ | ⟨c4, _ | ⟨c5, t⟩⟩⟩⟩⟩ <;>
    simp [pyLower] at h
  obtain ⟨-, -, -, h4⟩ := h
  exact ⟨[c1, c2, c3], c4, rfl, toLower_eq_x c4 h4⟩

lemma joinUnderscore_cons_cons (w₁ w₂ : List Char) (ws : List (List Char)) :
    joinUnderscore (w₁ :: w₂ :: ws) = w₁ ++ '_' :: joinUnderscore (w₂ :: ws) := rfl

/-- The word splitter followed by the underscore join preserves a final
non-whitespace character. -/
lemma joinUnderscore_splitWsAux_ends (x : Char) (hx : pyIsSpace x = false)
    (l : List Char) :
    ∀ acc, ∃ p, joinUnderscore (splitWsAux (l ++ [x]) acc) = p ++ [x] := by
  induction l with
  | nil =>
    intro acc
    refine ⟨acc.reverse, ?_⟩
    simp [splitWsAux, hx, joinUnderscore]
  | cons c rest ih =>
    intro acc
    rw [List.cons_append]
    cases hc : pyIsSpace c with
    | false =>
      simpa [splitWsAux, hc] using ih (c :: acc)
    | true =>
      by_cases hacc : acc = []
      · simpa [splitWsAux, hc, hacc] using ih []
      · obtain ⟨p, hp⟩ := ih []
        rcases hws : splitWsAux (rest ++ [x]) [] with _ | ⟨w, ws⟩
        · rw [hws] at hp
          simp [joinUnderscore] at hp
        · rw [hws] at hp
          refine ⟨acc.reverse ++ '_' :: p, ?_⟩
          simp only [splitWsAux, hc, if_pos, hacc, if_neg, ite_false, hws,
            joinUnderscore_cons_cons, hp]
          simp

/-- dropWhile preserves a final element that fails the predicate. -/
lemma dropWhile_ends (q : Char → Bool) (x : Char) (hx : q x = false) :
    ∀ p : List Char, ∃ p2, List.dropWhile q (p ++ [x]) = p2 ++ [x] := by
  intro p
  induction p with
  | nil => exact ⟨[], by simp [List.dropWhile, hx]⟩
  | cons c rest ih =>
    cases hc : q c with
    | true =>
      obtain ⟨p2, hp2⟩ := ih
      exact ⟨p2, by simp [List.dropWhile, hc, hp2]⟩
    | false => exact ⟨c :: rest, by simp [List.dropWhile, hc]⟩

/-- Stripping characters from both ends cannot erase a final character
outside the stripped set. -/
lemma pyStrip_ne_nil (bad : List Char) (p : List Char) (x : Char)
    (hx : bad.contains x = false) : pyStrip bad (p ++ [x]) ≠ [] := by
  unfold pyStrip
  obtain ⟨p2, hp2⟩ := dropWhile_ends (fun c => bad.contains c) x hx p
  rw [hp2]
  have hrev : (p2 ++ [x]).reverse = x :: p2.reverse := by simp
  rw [hrev, List.dropWhile_cons, hx]
  simp

/-- On an accepted filename, the sanitized name is never empty: the final
letter of the docx extension survives every stage of secure_filename. -/
lemma secure_filename_ne_empty (f : String) (h : App.allowed_file f = true) :
    secure_filename f ≠ "" := by
  obtain ⟨a, b, hab, hnb, hlow⟩ := (allowed_file_iff f).mp h
  obtain ⟨bp, x, hbp, hx⟩ := ends_x_of_pyLower_docx b hlow
  unfold secure_filename
  intro hempty
  have hdata := congrArg String.data hempty
  simp only [String.data] at hdata
  -- stage 1: the separator replacement keeps the final letter
  have hl0 : f.data = (a ++ '.' :: bp) ++ [x] := by
    rw [hab, hbp]
    simp
  have h1 : f.data.map (fun c => if c == '/' then ' ' else c)
      = (a ++ '.' :: bp).map (fun c => if c == '/' then ' ' else c) ++ [x] := by
    rw [hl0, List.map_append]
    congr 1
    rcases hx with h | h <;> subst h <;> decide
  -- stage 2: split on whitespace and join with underscores
  have hxs : pyIsSpace x = false := by
    rcases hx with h | h <;> rw [h] <;> decide
  obtain ⟨p2, hp2⟩ := joinUnderscore_splitWsAux_ends x hxs
    ((a ++ '.' :: bp).map (fun c => if c == '/' then ' ' else c)) []
  -- stage 3: the character filter keeps the final letter
  have hkeep : asciiKeep x = true := by
    rcases hx with h | h <;> rw [h] <;> decide
  have h3 : (p2 ++ [x]).filter asciiKeep = p2.filter asciiKeep ++ [x] := by
    rw [List.filter_append]
    simp [hkeep]
  -- stage 4: the strip cannot erase the final letter
  have hbad : (['.', '_'] : List Char).contains x = false := by
    rcases hx with h | h <;> rw [h] <;> decide
  have h4 := pyStrip_ne_nil ['.', '_'] (p2.filter asciiKeep) x hbad
  rw [h1] at hdata
  rw [pySplitWs] at hdata
  rw [hp2] at hdata
  rw [h3] at hdata
  exact h4 hdata

/-! ## Lemmas about the filesystem model and the cleanup blocks -/

lemma pathExists_iff (p : String) (fs : FS) : pathExists p fs = true ↔ p ∈ fs := by
  simp [pathExists, List.contains]

lemma mem_savePath_self (p : String) (fs : FS) : p ∈ savePath p fs := by
  unfold savePath
  split
  · assumption
  · exact List.mem_cons_self p fs

lemma not_mem_removePath_self (p : String) (fs : FS) : p ∉ removePath p fs := by
  simp [removePath]

lemma not_mem_removePath_of_not_mem (p q : String) (fs : FS) (h : p ∉ fs) :
    p ∉ removePath q fs := by
  intro hmem
  exact h (List.mem_of_mem_filter hmem)

lemma mem_renamePath_self (src dst : String) (fs : FS) :
    dst ∈ renamePath src dst fs :=
  mem_savePath_self dst (removePath src fs)

lemma not_mem_renamePath_src (src dst : String) (fs : FS) (h : src ≠ dst) :
    src ∉ renamePath src dst fs := by
  unfold renamePath savePath
  split
  · exact not_mem_removePath_self src fs
  · intro hmem
    rcases List.mem_cons.mp hmem with h1 | h2
    · exact h h1
    · exact not_mem_removePath_self src fs h2

lemma not_mem_tryRemove_self (p : String) (fs : FS) :
    p ∉ App.tryRemove (fun _ => false) p fs := by
  unfold App.tryRemove
  by_cases hp : pathExists p fs = true
  · rw [if_pos hp]
    exact not_mem_removePath_self p fs
  · rw [if_neg hp]
    intro hmem
    exact hp ((pathExists_iff p fs).mpr hmem)

lemma not_mem_tryRemove_of_not_mem (d : String → Bool) (p q : String) (fs : FS)
    (h : p ∉ fs) : p ∉ App.tryRemove d q fs := by
  unfold App.tryRemove
  split
  · split
    · exact h
    · exact not_mem_removePath_of_not_mem p q fs h
  · exact h

lemma apiCleanup_removes (docx pdf : String) (fs : FS) :
    docx ∉ App.apiCleanup (fun _ => false) docx pdf fs ∧
      pdf ∉ App.apiCleanup (fun _ => false) docx pdf fs := by
  unfold App.apiCleanup
  constructor
  · exact not_mem_tryRemove_of_not_mem _ docx pdf _
      (not_mem_tryRemove_self docx fs)
  · exact not_mem_tryRemove_self pdf _

lemma webCleanup_removes (docx pdf : String) (fs : FS) :
    docx ∉ App.webCleanup (fun _ => false) docx pdf fs ∧
      pdf ∉ App.webCleanup (fun _ => false) docx pdf fs := by
  unfold App.webCleanup
  by_cases h1 : pathExists docx fs = true
  · rw [if_pos h1]
    simp only [if_neg Bool.false_ne_true]
    by_cases h2 : pathExists pdf (removePath docx fs) = true
    · rw [if_pos h2]
      refine ⟨?_, not_mem_removePath_self pdf _⟩
      exact not_mem_removePath_of_not_mem docx pdf _
        (not_mem_removePath_self docx fs)
    · rw [if_neg h2]
      refine ⟨not_mem_removePath_self docx fs, ?_⟩
      intro hmem
      exact h2 ((pathExists_iff pdf _).mpr hmem)
  · rw [if_neg h1]
    have hd : docx ∉ fs := fun hmem => h1 ((pathExists_iff docx fs).mpr hmem)
    by_cases h2 : pathExists pdf fs = true
    · rw [if_pos h2]
      simp only [if_neg Bool.false_ne_true]
      exact ⟨not_mem_removePath_of_not_mem docx pdf fs hd,
        not_mem_removePath_self pdf fs⟩
    · rw [if_neg h2]
      refine ⟨hd, fun hmem => h2 ((pathExists_iff pdf fs).mpr hmem)⟩

/-! ## Behaviour of the conversion dispatcher -/

/-- The LibreOffice run made by perform_conversion, when it fits inside
the timeout, completes with the oracle exit data and places any produced
file at the expected pdf path. -/
lemma subprocess_in_perform (b : LoBehavior) (dp pp : String) (fs : FS)
    (h : ¬ 120 < b.runtime) :
    subprocessRunLibreoffice b (pyDirname pp) dp 120 fs =
      (Except.ok (b.returncode, b.stderr),
        if b.producesOutput then savePath (App.expected_pdf dp pp) fs else fs) := by
  unfold subprocessRunLibreoffice App.expected_pdf
  rw [if_neg h]

lemma com_branch_dead : ¬ ((App.IS_WINDOWS && App.USE_DOCX2PDF) = true) := by decide

lemma perform_conversion_timeout (b : LoBehavior) (dp pp : String) (fs : FS)
    (h : 120 < b.runtime) :
    App.perform_conversion b dp pp fs = (Except.error PyExc.timeoutExpired, fs) := by
  unfold App.perform_conversion
  rw [if_neg com_branch_dead]
  unfold subprocessRunLibreoffice
  rw [if_pos h]

lemma perform_conversion_not_timeout (b : LoBehavior) (dp pp : String) (fs : FS)
    (h : b.runtime ≤ 120) :
    (App.perform_conversion b dp pp fs).1 ≠ Except.error PyExc.timeoutExpired := by
  unfold App.perform_conversion
  rw [if_neg com_branch_dead, subprocess_in_perform b dp pp fs (Nat.not_lt.mpr h)]
  dsimp only
  split_ifs <;> simp

lemma perform_conversion_success (b : LoBehavior) (dp pp : String) (fs : FS)
    (hrt : b.runtime ≤ 120) (hrc : b.returncode = 0) (hpo : b.producesOutput = true) :
    (App.perform_conversion b dp pp fs).1 = Except.ok () ∧
      pp ∈ (App.perform_conversion b dp pp fs).2 := by
  unfold App.perform_conversion
  rw [if_neg com_branch_dead, subprocess_in_perform b dp pp fs (Nat.not_lt.mpr hrt)]
  dsimp only
  rw [hpo, if_pos rfl, hrc]
  rw [if_neg (show ¬ ((0 : Int) ≠ 0) from fun hne => hne rfl)]
  by_cases hep : App.expected_pdf dp pp = pp
  · have hcond : ¬ (App.expected_pdf dp pp ≠ pp ∧
        pathExists (App.expected_pdf dp pp) (savePath (App.expected_pdf dp pp) fs) = true) := by
      intro hand
      exact hand.1 hep
    rw [if_neg hcond]
    refine ⟨rfl, ?_⟩
    show pp ∈ savePath (App.expected_pdf dp pp) fs
    rw [hep]
    exact mem_savePath_self pp fs
  · have hcond : App.expected_pdf dp pp ≠ pp ∧
        pathExists (App.expected_pdf dp pp) (savePath (App.expected_pdf dp pp) fs) = true :=
      ⟨hep, (pathExists_iff _ _).mpr (mem_savePath_self _ fs)⟩
    rw [if_pos hcond]
    exact ⟨rfl, mem_renamePath_self _ pp _⟩

lemma perform_conversion_silent_success (b : LoBehavior) (dp pp : String) (fs : FS)
    (hrt : b.runtime ≤ 120) (hrc : b.returncode = 0) (hpo : b.producesOutput = false)
    (hmiss : pathExists (App.expected_pdf dp pp) fs = false) :
    App.perform_conversion b dp pp fs = (Except.ok (), fs) := by
  unfold App.perform_conversion
  rw [if_neg com_branch_dead, subprocess_in_perform b dp pp fs (Nat.not_lt.mpr hrt)]
  dsimp only
  rw [hpo, if_neg (show ¬ (false = true) from Bool.false_ne_true), hrc]
  rw [if_neg (show ¬ ((0 : Int) ≠ 0) from fun hne => hne rfl)]
  have hcond : ¬ (App.expected_pdf dp pp ≠ pp ∧
      pathExists (App.expected_pdf dp pp) fs = true) := by
    intro hand
    rw [hmiss] at hand
    exact Bool.false_ne_true hand.2
  rw [if_neg hcond]

/-! ## Reduction lemmas for the two request handlers -/

lemma api_validation_passes (file : App.UploadedFile)
    (h2 : file.filename ≠ "") (h3 : App.allowed_file file.filename = true) :
    ¬ ((file.filename == "" || !App.allowed_file file.filename) = true) := by
  simp [h2, h3]

/-- Whatever the conversion outcome, an accepted API request always ends
in the finally block: its final filesystem is the cleanup of some
intermediate state. -/
lemma api_snd_cleanup (b : LoBehavior) (df : String → Bool) (uuid : String)
    (req : App.Request) (fs : FS) (file : App.UploadedFile)
    (h1 : List.lookup "file" req.files = some file)
    (h2 : file.filename ≠ "") (h3 : App.allowed_file file.filename = true) :
    ∃ fs2, (App.api_convert_docx_to_pdf b df uuid req fs).2 =
      App.apiCleanup df (App.api_docx_path uuid (secure_filename file.filename))
        (App.api_pdf_path uuid (secure_filename file.filename)) fs2 := by
  unfold App.api_convert_docx_to_pdf
  rw [h1]
  dsimp only
  rw [if_neg (api_validation_passes file h2 h3)]
  rcases hpc : App.perform_conversion b
      (App.api_docx_path uuid (secure_filename file.filename))
      (App.api_pdf_path uuid (secure_filename file.filename))
      (savePath (App.api_docx_path uuid (secure_filename file.filename)) fs)
    with ⟨res, fs2⟩
  rcases res with e | u
  · rcases e with _ | m | m <;> exact ⟨fs2, rfl⟩
  · dsimp only
    by_cases hpdf : pathExists (App.api_pdf_path uuid (secure_filename file.filename)) fs2 = true
    · rw [if_pos hpdf]
      exact ⟨fs2, rfl⟩
    · rw [if_neg hpdf]
      exact ⟨fs2, rfl⟩

/-- The API response never depends on whether temp-file deletion fails:
cleanup runs after the response is computed and swallows its errors. -/
lemma api_fst_indep (b : LoBehavior) (df : String → Bool) (uuid : String)
    (req : App.Request) (fs : FS) :
    (App.api_convert_docx_to_pdf b df uuid req fs).1 =
      (App.api_convert_docx_to_pdf b (fun _ => false) uuid req fs).1 := by
  unfold App.api_convert_docx_to_pdf
  cases hl : List.lookup "file" req.files with
  | none => rfl
  | some file =>
    dsimp only
    by_cases hcond : (file.filename == "" || !App.allowed_file file.filename) = true
    · simp only [if_pos hcond]
    · simp only [if_neg hcond]
      rcases hpc : App.perform_conversion b
          (App.api_docx_path uuid (secure_filename file.filename))
          (App.api_pdf_path uuid (secure_filename file.filename))
          (savePath (App.api_docx_path uuid (secure_filename file.filename)) fs)
        with ⟨res, fs2⟩
      rcases res with e | u
      · rcases e with _ | m | m <;> rfl
      · dsimp only
        by_cases hpdf : pathExists (App.api_pdf_path uuid (secure_filename file.filename)) fs2 = true
        · simp only [if_pos hpdf]
        · simp only [if_neg hpdf]

/-- Whatever the conversion outcome, an accepted interactive request
always ends in the finally block. -/
lemma web_snd_cleanup (b : LoBehavior) (df : String → Bool)
    (req : App.Request) (fs : FS) (file : App.UploadedFile)
    (h1 : List.lookup "file" req.files = some file)
    (h2 : file.filename ≠ "") (h3 : App.allowed_file file.filename = true) :
    ∃ fs2, (App.convert_docx_to_pdf b df req fs).2 =
      App.webCleanup df (App.web_docx_path (secure_filename file.filename))
        (App.web_pdf_path (secure_filename file.filename)) fs2 := by
  unfold App.convert_docx_to_pdf
  rw [h1]
  dsimp only
  rw [if_neg (show ¬ ((file.filename == "") = true) by simp [h2]), if_pos h3]
  rcases hpc : App.perform_conversion b
      (App.web_docx_path (secure_filename file.filename))
      (App.web_pdf_path (secure_filename file.filename))
      (savePath (App.web_docx_path (secure_filename file.filename)) fs)
    with ⟨res, fs2⟩
  rcases res with e | u
  · exact ⟨fs2, rfl⟩
  · dsimp only
    by_cases hpdf : pathExists (App.web_pdf_path (secure_filename file.filename)) fs2 = true
    · rw [if_pos hpdf]
      exact ⟨fs2, rfl⟩
    · rw [if_neg hpdf]
      exact ⟨fs2, rfl⟩

/-- The interactive response never depends on whether temp-file deletion
fails. -/
lemma web_fst_indep (b : LoBehavior) (df : String → Bool)
    (req : App.Request) (fs : FS) :
    (App.convert_docx_to_pdf b df req fs).1 =
      (App.convert_docx_to_pdf b (fun _ => false) req fs).1 := by
  unfold App.convert_docx_to_pdf
  cases hl : List.lookup "file" req.files with
  | none => rfl
  | some file =>
    dsimp only
    by_cases hempty : (file.filename == "") = true
    · simp only [if_pos hempty]
    · simp only [if_neg hempty]
      by_cases hallow : App.allowed_file file.filename = true
      · simp only [if_pos hallow]
        rcases hpc : App.perform_conversion b
            (App.web_docx_path (secure_filename file.filename))
            (App.web_pdf_path (secure_filename file.filename))
            (savePath (App.web_docx_path (secure_filename file.filename)) fs)
          with ⟨res, fs2⟩
        rcases res with e | u
        · rfl
        · dsimp only
          by_cases hpdf : pathExists (App.web_pdf_path (secure_filename file.filename)) fs2 = true
          · simp only [if_pos hpdf]
          · simp only [if_neg hpdf]
      · simp only [if_neg hallow]

lemma savePath_nil (p : String) : savePath p [] = [p] := by
  simp [savePath]

lemma pathExists_singleton_of_ne (p q : String) (h : p ≠ q) :
    pathExists p [q] = false := by
  rw [← Bool.not_eq_true]
  intro hmem
  have := (pathExists_iff p [q]).mp hmem
  simp at this
  exact h this

/-- An accepted API request whose backend run exceeds the timeout is
answered with the 500 timeout JSON error. -/
lemma api_fst_timeout (b : LoBehavior) (df : String → Bool) (uuid : String)
    (req : App.Request) (fs : FS) (file : App.UploadedFile)
    (h1 : List.lookup "file" req.files = some file)
    (h2 : file.filename ≠ "") (h3 : App.allowed_file file.filename = true)
    (ht : 120 < b.runtime) :
    (App.api_convert_docx_to_pdf b df uuid req fs).1 =
      App.ApiResponse.jsonError "Conversion timeout - file may be too large or complex" 500 := by
  unfold App.api_convert_docx_to_pdf
  rw [h1]
  dsimp only
  rw [if_neg (api_validation_passes file h2 h3)]
  rw [perform_conversion_timeout _ _ _ _ ht]

/-- An accepted API request whose backend run succeeds and produces its
output is answered with the pdf attachment named after the sanitized
filename. -/
lemma api_fst_success (b : LoBehavior) (df : String → Bool) (uuid : String)
    (req : App.Request) (fs : FS) (file : App.UploadedFile)
    (h1 : List.lookup "file" req.files = some file)
    (h2 : file.filename ≠ "") (h3 : App.allowed_file file.filename = true)
    (hrt : b.runtime ≤ 120) (hrc : b.returncode = 0) (hpo : b.producesOutput = true) :
    (App.api_convert_docx_to_pdf b df uuid req fs).1 =
      App.ApiResponse.pdfAttachment (App.api_pdf_filename (secure_filename file.filename))
        "application/pdf" := by
  unfold App.api_convert_docx_to_pdf
  rw [h1]
  dsimp only
  rw [if_neg (api_validation_passes file h2 h3)]
  have hsucc := perform_conversion_success b
    (App.api_docx_path uuid (secure_filename file.filename))
    (App.api_pdf_path uuid (secure_filename file.filename))
    (savePath (App.api_docx_path uuid (secure_filename file.filename)) fs) hrt hrc hpo
  rcases hpc : App.perform_conversion b
      (App.api_docx_path uuid (secure_filename file.filename))
      (App.api_pdf_path uuid (secure_filename file.filename))
      (savePath (App.api_docx_path uuid (secure_filename file.filename)) fs)
    with ⟨res, fs2⟩
  rw [hpc] at hsucc
  obtain ⟨hres, hmem⟩ := hsucc
  dsimp only at hres hmem
  subst hres
  dsimp only
  rw [if_pos ((pathExists_iff _ _).mpr hmem)]

/-- An accepted API request whose backend claims success without producing
output, staged into an empty temp directory, is answered with the generic
500 conversion-failed error wrapping the file-not-found message. -/
lemma api_fst_output_missing (b : LoBehavior) (df : String → Bool) (uuid : String)
    (req : App.Request) (file : App.UploadedFile)
    (h1 : List.lookup "file" req.files = some file)
    (h2 : file.filename ≠ "") (h3 : App.allowed_file file.filename = true)
    (hrt : b.runtime ≤ 120) (hrc : b.returncode = 0) (hpo : b.producesOutput = false)
    (hne1 : App.expected_pdf (App.api_docx_path uuid (secure_filename file.filename))
        (App.api_pdf_path uuid (secure_filename file.filename))
      ≠ App.api_docx_path uuid (secure_filename file.filename))
    (hne2 : App.api_pdf_path uuid (secure_filename file.filename)
      ≠ App.api_docx_path uuid (secure_filename file.filename)) :
    (App.api_convert_docx_to_pdf b df uuid req []).1 =
      App.ApiResponse.jsonError
        ("Conversion failed: " ++
          App.fileNotFoundMsg (App.api_pdf_path uuid (secure_filename file.filename))) 500 := by
  unfold App.api_convert_docx_to_pdf
  rw [h1]
  dsimp only
  rw [if_neg (api_validation_passes file h2 h3)]
  rw [savePath_nil]
  rw [perform_conversion_silent_success b _ _ _ hrt hrc hpo
    (pathExists_singleton_of_ne _ _ hne1)]
  dsimp only
  rw [if_neg (show ¬ (pathExists (App.api_pdf_path uuid (secure_filename file.filename))
      [App.api_docx_path uuid (secure_filename file.filename)] = true) by
    rw [pathExists_singleton_of_ne _ _ hne2]
    exact Bool.false_ne_true)]

lemma module_com_branch_dead :
    ¬ ((DocxPdfConverter.IS_WINDOWS && DocxPdfConverter.USE_DOCX2PDF) = true) := by decide

/-- The module converter raises its distinct output-missing error when the
backend reports success without producing the pdf. -/
lemma module_output_missing (b : LoBehavior) (docx : String) (od : Option String)
    (fs : FS)
    (hin : pathExists docx fs = true)
    (hrt : b.runtime ≤ 120) (hrc : b.returncode = 0) (hpo : b.producesOutput = false)
    (hmiss : pathExists (DocxPdfConverter.module_pdf_path docx od) fs = false) :
    (DocxPdfConverter.convert_docx_to_pdf b docx od fs).1 =
      Except.error (PyExc.exception
        ("PDF file was not created: " ++ DocxPdfConverter.module_pdf_path docx od)) := by
  unfold DocxPdfConverter.convert_docx_to_pdf
  rw [if_neg (show ¬ ((!pathExists docx fs) = true) by rw [hin]; decide)]
  dsimp only
  rw [if_neg module_com_branch_dead]
  unfold subprocessRunLibreoffice
  rw [if_neg (Nat.not_lt.mpr hrt)]
  dsimp only
  rw [hpo, if_neg (show ¬ (false = true) from Bool.false_ne_true), hrc]
  rw [if_neg (show ¬ ((0 : Int) ≠ 0) from fun hne => hne rfl)]
  have : (!pathExists (DocxPdfConverter.module_pdf_path docx od) fs) = true := by
    rw [hmiss]
    decide
  rw [if_pos this]

/-! ## Claim theorems -/

/-- C1: for every request to either endpoint that stages temporary files,
the staged input path and the output pdf path are both absent from the
final filesystem when deletion succeeds, and the response never depends on
the deletion-failure oracle: the finally blocks swallow deletion errors
after the response is fixed. -/
theorem claim_C1_temp_cleanup (b : LoBehavior) (delFail : String → Bool)
    (uuid : String) (req : App.Request) (fs : FS) (file : App.UploadedFile)
    (h1 : List.lookup "file" req.files = some file)
    (h2 : file.filename ≠ "") (h3 : App.allowed_file file.filename = true) :
    (App.api_docx_path uuid (secure_filename file.filename) ∉
        (App.api_convert_docx_to_pdf b (fun _ => false) uuid req fs).2
      ∧ App.api_pdf_path uuid (secure_filename file.filename) ∉
        (App.api_convert_docx_to_pdf b (fun _ => false) uuid req fs).2
      ∧ (App.api_convert_docx_to_pdf b delFail uuid req fs).1 =
        (App.api_convert_docx_to_pdf b (fun _ => false) uuid req fs).1)
    ∧ (App.web_docx_path (secure_filename file.filename) ∉
        (App.convert_docx_to_pdf b (fun _ => false) req fs).2
      ∧ App.web_pdf_path (secure_filename file.filename) ∉
        (App.convert_docx_to_pdf b (fun _ => false) req fs).2
      ∧ (App.convert_docx_to_pdf b delFail req fs).1 =
        (App.convert_docx_to_pdf b (fun _ => false) req fs).1) := by
  obtain ⟨fsa, hfsa⟩ := api_snd_cleanup b (fun _ => false) uuid req fs file h1 h2 h3
  obtain ⟨fsw, hfsw⟩ := web_snd_cleanup b (fun _ => false) req fs file h1 h2 h3
  refine ⟨⟨?_, ?_, api_fst_indep b delFail uuid req fs⟩,
    ⟨?_, ?_, web_fst_indep b delFail req fs⟩⟩
  · rw [hfsa]
    exact (apiCleanup_removes _ _ _).1
  · rw [hfsa]
    exact (apiCleanup_removes _ _ _).2
  · rw [hfsw]
    exact (webCleanup_removes _ _ _).1
  · rw [hfsw]
    exact (webCleanup_removes _ _ _).2

/-- Witness for C1 at a concrete accepted request on both endpoints. -/
theorem claim_C1_temp_cleanup_witness :
    (App.api_docx_path "u" (secure_filename "a.docx") ∉
        (App.api_convert_docx_to_pdf ⟨1, 0, "", true⟩ (fun _ => false) "u"
          ⟨[("file", ⟨"a.docx"⟩)]⟩ []).2
      ∧ App.api_pdf_path "u" (secure_filename "a.docx") ∉
        (App.api_convert_docx_to_pdf ⟨1, 0, "", true⟩ (fun _ => false) "u"
          ⟨[("file", ⟨"a.docx"⟩)]⟩ []).2
      ∧ (App.api_convert_docx_to_pdf ⟨1, 0, "", true⟩ (fun _ => false) "u"
          ⟨[("file", ⟨"a.docx"⟩)]⟩ []).1 =
        (App.api_convert_docx_to_pdf ⟨1, 0, "", true⟩ (fun _ => false) "u"
          ⟨[("file", ⟨"a.docx"⟩)]⟩ []).1)
    ∧ (App.web_docx_path (secure_filename "a.docx") ∉
        (App.convert_docx_to_pdf ⟨1, 0, "", true⟩ (fun _ => false)
          ⟨[("file", ⟨"a.docx"⟩)]⟩ []).2
      ∧ App.web_pdf_path (secure_filename "a.docx") ∉
        (App.convert_docx_to_pdf ⟨1, 0, "", true⟩ (fun _ => false)
          ⟨[("file", ⟨"a.docx"⟩)]⟩ []).2
      ∧ (App.convert_docx_to_pdf ⟨1, 0, "", true⟩ (fun _ => false)
          ⟨[("file", ⟨"a.docx"⟩)]⟩ []).1 =
        (App.convert_docx_to_pdf ⟨1, 0, "", true⟩ (fun _ => false)
          ⟨[("file", ⟨"a.docx"⟩)]⟩ []).1) :=
  claim_C1_temp_cleanup ⟨1, 0, "", true⟩ (fun _ => false) "u"
    ⟨[("file", ⟨"a.docx"⟩)]⟩ [] ⟨"a.docx"⟩ (by decide) (by decide) (by decide)

/-- C2: validation runs in order (file field present, filename non-empty,
extension allowed) on both endpoints, and every validation failure returns
its rejection with the filesystem unchanged and the converter oracle never
consulted. -/
theorem claim_C2_validation_order (b : LoBehavior) (delFail : String → Bool)
    (uuid : String) (req : App.Request) (fs : FS) :
    (List.lookup "file" req.files = none →
        App.api_convert_docx_to_pdf b delFail uuid req fs =
          (App.ApiResponse.jsonError "No file provided" 400, fs)
        ∧ App.convert_docx_to_pdf b delFail req fs =
          (App.WebResponse.redirectFlash "No file uploaded", fs))
    ∧ (∀ file, List.lookup "file" req.files = some file → file.filename = "" →
        App.api_convert_docx_to_pdf b delFail uuid req fs =
          (App.ApiResponse.jsonError "Invalid file type. Only .docx files are accepted" 400, fs)
        ∧ App.convert_docx_to_pdf b delFail req fs =
          (App.WebResponse.redirectFlash "No file selected", fs))
    ∧ (∀ file, List.lookup "file" req.files = some file → file.filename ≠ "" →
        App.allowed_file file.filename = false →
        App.api_convert_docx_to_pdf b delFail uuid req fs =
          (App.ApiResponse.jsonError "Invalid file type. Only .docx files are accepted" 400, fs)
        ∧ App.convert_docx_to_pdf b delFail req fs =
          (App.WebResponse.redirectFlash "Invalid file type. Please upload a .docx file", fs)) := by
  refine ⟨?_, ?_, ?_⟩
  · intro h
    unfold App.api_convert_docx_to_pdf App.convert_docx_to_pdf
    rw [h]
    exact ⟨rfl, rfl⟩
  · intro file h1 h2
    unfold App.api_convert_docx_to_pdf App.convert_docx_to_pdf
    rw [h1]
    dsimp only
    constructor
    · rw [if_pos (show (file.filename == "" || !App.allowed_file file.filename) = true by
        simp [h2])]
    · rw [if_pos (show (file.filename == "") = true by simp [h2])]
  · intro file h1 h2 h3
    unfold App.api_convert_docx_to_pdf App.convert_docx_to_pdf
    rw [h1]
    dsimp only
    constructor
    · rw [if_pos (show (file.filename == "" || !App.allowed_file file.filename) = true by
        simp [h3])]
    · rw [if_neg (show ¬ ((file.filename == "") = true) by simp [h2]),
        if_neg (show ¬ (App.allowed_file file.filename = true) by simp [h3])]

/-- Witness for C2 at three concrete rejected requests. -/
theorem claim_C2_validation_order_witness :
    (App.api_convert_docx_to_pdf ⟨1, 0, "", true⟩ (fun _ => false) "u" ⟨[]⟩ [] =
        (App.ApiResponse.jsonError "No file provided" 400, [])
      ∧ App.convert_docx_to_pdf ⟨1, 0, "", true⟩ (fun _ => false) ⟨[]⟩ [] =
        (App.WebResponse.redirectFlash "No file uploaded", []))
    ∧ (App.api_convert_docx_to_pdf ⟨1, 0, "", true⟩ (fun _ => false) "u"
          ⟨[("file", ⟨""⟩)]⟩ [] =
        (App.ApiResponse.jsonError "Invalid file type. Only .docx files are accepted" 400, [])
      ∧ App.convert_docx_to_pdf ⟨1, 0, "", true⟩ (fun _ => false)
          ⟨[("file", ⟨""⟩)]⟩ [] =
        (App.WebResponse.redirectFlash "No file selected", []))
    ∧ (App.api_convert_docx_to_pdf ⟨1, 0, "", true⟩ (fun _ => false) "u"
          ⟨[("file", ⟨"notes.txt"⟩)]⟩ [] =
        (App.ApiResponse.jsonError "Invalid file type. Only .docx files are accepted" 400, [])
      ∧ App.convert_docx_to_pdf ⟨1, 0, "", true⟩ (fun _ => false)
          ⟨[("file", ⟨"notes.txt"⟩)]⟩ [] =
        (App.WebResponse.redirectFlash "Invalid file type. Please upload a .docx file", [])) := by
  refine ⟨(claim_C2_validation_order _ _ "u" ⟨[]⟩ []).1 (by decide), ?_, ?_⟩
  · exact (claim_C2_validation_order _ _ "u" ⟨[("file", ⟨""⟩)]⟩ []).2.1
      ⟨""⟩ (by decide) rfl
  · exact (claim_C2_validation_order _ _ "u" ⟨[("file", ⟨"notes.txt"⟩)]⟩ []).2.2
      ⟨"notes.txt"⟩ (by decide) (by decide) (by decide)

/-- C3 counterexample: the app dispatcher perform_conversion, told by the
backend that the run succeeded (exit code 0) while no pdf was produced,
returns success with no error of any kind, although no pdf exists at the
requested location; the claim that every such conversion fails with a
distinct output-missing error is therefore false for the service. -/
theorem claim_C3_counterexample :
    App.perform_conversion ⟨1, 0, "", false⟩ "/tmp/u_in.docx" "/tmp/u_in.pdf"
        ["/tmp/u_in.docx"] = (Except.ok (), ["/tmp/u_in.docx"])
    ∧ pathExists "/tmp/u_in.pdf" ["/tmp/u_in.docx"] = false := ⟨rfl, rfl⟩

/-- C3 (amended): the module converter docx_pdf_converter.convert_docx_to_pdf
raises the distinct output-missing error when the backend reports success
without producing a pdf; the app dispatcher performs no such check, and on
the API endpoint the missing output surfaces only as a generic 500
conversion-failed error when the handler fails to read the pdf back. -/
theorem claim_C3_amended (b : LoBehavior) (docx : String) (od : Option String)
    (fs : FS) (delFail : String → Bool) (uuid : String) (req : App.Request)
    (file : App.UploadedFile)
    (hrt : b.runtime ≤ 120) (hrc : b.returncode = 0) (hpo : b.producesOutput = false)
    (hin : pathExists docx fs = true)
    (hmiss : pathExists (DocxPdfConverter.module_pdf_path docx od) fs = false)
    (h1 : List.lookup "file" req.files = some file)
    (h2 : file.filename ≠ "") (h3 : App.allowed_file file.filename = true)
    (hne1 : App.expected_pdf (App.api_docx_path uuid (secure_filename file.filename))
        (App.api_pdf_path uuid (secure_filename file.filename))
      ≠ App.api_docx_path uuid (secure_filename file.filename))
    (hne2 : App.api_pdf_path uuid (secure_filename file.filename)
      ≠ App.api_docx_path uuid (secure_filename file.filename)) :
    (DocxPdfConverter.convert_docx_to_pdf b docx od fs).1 =
      Except.error (PyExc.exception
        ("PDF file was not created: " ++ DocxPdfConverter.module_pdf_path docx od))
    ∧ (App.api_convert_docx_to_pdf b delFail uuid req []).1 =
      App.ApiResponse.jsonError
        ("Conversion failed: " ++
          App.fileNotFoundMsg (App.api_pdf_path uuid (secure_filename file.filename))) 500
    ∧ (App.api_convert_docx_to_pdf b delFail uuid req []).1.status = 500 := by
  have hmod := module_output_missing b docx od fs hin hrt hrc hpo hmiss
  have hapi := api_fst_output_missing b delFail uuid req file h1 h2 h3 hrt hrc hpo hne1 hne2
  refine ⟨hmod, hapi, ?_⟩
  rw [hapi]
  rfl

/-- Witness for C3 (amended) at concrete paths and a concrete request. -/
theorem claim_C3_amended_witness :
    (DocxPdfConverter.convert_docx_to_pdf ⟨1, 0, "", false⟩ "/tmp/in.docx" none
        ["/tmp/in.docx"]).1 =
      Except.error (PyExc.exception
        ("PDF file was not created: " ++ DocxPdfConverter.module_pdf_path "/tmp/in.docx" none))
    ∧ (App.api_convert_docx_to_pdf ⟨1, 0, "", false⟩ (fun _ => false) "u"
        ⟨[("file", ⟨"a.docx"⟩)]⟩ []).1 =
      App.ApiResponse.jsonError
        ("Conversion failed: " ++
          App.fileNotFoundMsg (App.api_pdf_path "u" (secure_filename "a.docx"))) 500
    ∧ (App.api_convert_docx_to_pdf ⟨1, 0, "", false⟩ (fun _ => false) "u"
        ⟨[("file", ⟨"a.docx"⟩)]⟩ []).1.status = 500 :=
  claim_C3_amended ⟨1, 0, "", false⟩ "/tmp/in.docx" none ["/tmp/in.docx"]
    (fun _ => false) "u" ⟨[("file", ⟨"a.docx"⟩)]⟩ ⟨"a.docx"⟩
    (by decide) (by decide) (by decide) (by decide) (by decide)
    (by decide) (by decide) (by decide) (by decide) (by decide)

/-- C4 counterexample: the upload named .docx passes validation, yet its
sanitized name is docx, which does not end in .docx in any case. -/
theorem claim_C4_counterexample :
    App.allowed_file ".docx" = true
    ∧ secure_filename ".docx" = "docx"
    ∧ endsInDocxCI (secure_filename ".docx") = false := by decide

/-- C4 (amended): for every upload accepted by either endpoint, the
filename after sanitization is non-empty; it need not end in .docx. -/
theorem claim_C4_amended (f : String) (h : App.allowed_file f = true) :
    secure_filename f ≠ "" :=
  secure_filename_ne_empty f h

/-- Witness for C4 (amended) at a concrete accepted filename. -/
theorem claim_C4_amended_witness : secure_filename "Report.DOCX" ≠ "" :=
  claim_C4_amended "Report.DOCX" (by decide)

/-- C5: backend B runs under a hard 120 second wall-clock timeout: a run
longer than 120 seconds raises TimeoutExpired, which the API endpoint
answers with the 500 timeout JSON error while both temp paths are still
deleted, and a run within 120 seconds never raises TimeoutExpired. -/
theorem claim_C5_timeout (b : LoBehavior) (delFail : String → Bool)
    (uuid : String) (req : App.Request) (fs : FS) (file : App.UploadedFile)
    (dp pp : String)
    (h1 : List.lookup "file" req.files = some file)
    (h2 : file.filename ≠ "") (h3 : App.allowed_file file.filename = true) :
    (120 < b.runtime →
        App.perform_conversion b dp pp fs = (Except.error PyExc.timeoutExpired, fs)
        ∧ (App.api_convert_docx_to_pdf b delFail uuid req fs).1 =
          App.ApiResponse.jsonError "Conversion timeout - file may be too large or complex" 500
        ∧ (App.api_convert_docx_to_pdf b delFail uuid req fs).1.status = 500
        ∧ App.api_docx_path uuid (secure_filename file.filename) ∉
          (App.api_convert_docx_to_pdf b (fun _ => false) uuid req fs).2
        ∧ App.api_pdf_path uuid (secure_filename file.filename) ∉
          (App.api_convert_docx_to_pdf b (fun _ => false) uuid req fs).2)
    ∧ (b.runtime ≤ 120 →
        (App.perform_conversion b dp pp fs).1 ≠ Except.error PyExc.timeoutExpired) := by
  constructor
  · intro ht
    have hresp := api_fst_timeout b delFail uuid req fs file h1 h2 h3 ht
    obtain ⟨fsa, hfsa⟩ := api_snd_cleanup b (fun _ => false) uuid req fs file h1 h2 h3
    refine ⟨perform_conversion_timeout b dp pp fs ht, hresp, ?_, ?_, ?_⟩
    · rw [hresp]
      rfl
    · rw [hfsa]
      exact (apiCleanup_removes _ _ _).1
    · rw [hfsa]
      exact (apiCleanup_removes _ _ _).2
  · intro hle
    exact perform_conversion_not_timeout b dp pp fs hle

/-- Witness for C5 at a 121 second run and a 1 second run. -/
theorem claim_C5_timeout_witness :
    (App.perform_conversion ⟨121, 0, "", true⟩ "/tmp/in.docx" "/tmp/out.pdf" [] =
        (Except.error PyExc.timeoutExpired, [])
      ∧ (App.api_convert_docx_to_pdf ⟨121, 0, "", true⟩ (fun _ => false) "u"
          ⟨[("file", ⟨"a.docx"⟩)]⟩ []).1 =
        App.ApiResponse.jsonError "Conversion timeout - file may be too large or complex" 500
      ∧ (App.api_convert_docx_to_pdf ⟨121, 0, "", true⟩ (fun _ => false) "u"
          ⟨[("file", ⟨"a.docx"⟩)]⟩ []).1.status = 500
      ∧ App.api_docx_path "u" (secure_filename "a.docx") ∉
        (App.api_convert_docx_to_pdf ⟨121, 0, "", true⟩ (fun _ => false) "u"
          ⟨[("file", ⟨"a.docx"⟩)]⟩ []).2
      ∧ App.api_pdf_path "u" (secure_filename "a.docx") ∉
        (App.api_convert_docx_to_pdf ⟨121, 0, "", true⟩ (fun _ => false) "u"
          ⟨[("file", ⟨"a.docx"⟩)]⟩ []).2)
    ∧ (App.perform_conversion ⟨1, 0, "", true⟩ "/tmp/in.docx" "/tmp/out.pdf" []).1 ≠
        Except.error PyExc.timeoutExpired :=
  ⟨(claim_C5_timeout ⟨121, 0, "", true⟩ (fun _ => false) "u"
      ⟨[("file", ⟨"a.docx"⟩)]⟩ [] ⟨"a.docx"⟩ "/tmp/in.docx" "/tmp/out.pdf"
      (by decide) (by decide) (by decide)).1 (by decide),
   (claim_C5_timeout ⟨1, 0, "", true⟩ (fun _ => false) "u"
      ⟨[("file", ⟨"a.docx"⟩)]⟩ [] ⟨"a.docx"⟩ "/tmp/in.docx" "/tmp/out.pdf"
      (by decide) (by decide) (by decide)).2 (by decide)⟩

/-- C6: after a successful backend B run whose produced file, named after
the input basename, differs from the requested output path, the dispatcher
renames it: the conversion reports success, the requested path exists
afterwards and the produced path does not. -/
theorem claim_C6_rename_mismatch (b : LoBehavior) (docx pdf : String) (fs : FS)
    (hrt : b.runtime ≤ 120) (hrc : b.returncode = 0) (hpo : b.producesOutput = true)
    (hne : App.expected_pdf docx pdf ≠ pdf) :
    (App.perform_conversion b docx pdf fs).1 = Except.ok ()
    ∧ pdf ∈ (App.perform_conversion b docx pdf fs).2
    ∧ App.expected_pdf docx pdf ∉ (App.perform_conversion b docx pdf fs).2 := by
  have hsucc := perform_conversion_success b docx pdf fs hrt hrc hpo
  refine ⟨hsucc.1, hsucc.2, ?_⟩
  unfold App.perform_conversion
  rw [if_neg com_branch_dead, subprocess_in_perform b docx pdf fs (Nat.not_lt.mpr hrt)]
  dsimp only
  rw [hpo, if_pos rfl, hrc, if_neg (show ¬ ((0 : Int) ≠ 0) from fun h => h rfl)]
  have hcond : App.expected_pdf docx pdf ≠ pdf ∧
      pathExists (App.expected_pdf docx pdf) (savePath (App.expected_pdf docx pdf) fs) = true :=
    ⟨hne, (pathExists_iff _ _).mpr (mem_savePath_self _ fs)⟩
  rw [if_pos hcond]
  exact not_mem_renamePath_src _ _ _ hne

/-- Witness for C6 at concrete mismatching paths. -/
theorem claim_C6_rename_mismatch_witness :
    (App.perform_conversion ⟨5, 0, "", true⟩ "/tmp/in.docx" "/tmp/out.pdf" []).1 =
      Except.ok ()
    ∧ "/tmp/out.pdf" ∈ (App.perform_conversion ⟨5, 0, "", true⟩ "/tmp/in.docx" "/tmp/out.pdf" []).2
    ∧ App.expected_pdf "/tmp/in.docx" "/tmp/out.pdf" ∉
      (App.perform_conversion ⟨5, 0, "", true⟩ "/tmp/in.docx" "/tmp/out.pdf" []).2 :=
  claim_C6_rename_mismatch ⟨5, 0, "", true⟩ "/tmp/in.docx" "/tmp/out.pdf" []
    (by decide) (by decide) (by decide) (by decide)

/-- C7 counterexample: an upload named a b.docx succeeds with attachment
name a_b.pdf, the stem of the sanitized filename with a pdf extension,
which differs from the uploaded filename stem followed by .pdf. -/
theorem claim_C7_counterexample :
    (App.api_convert_docx_to_pdf ⟨1, 0, "", true⟩ (fun _ => false) "u"
        ⟨[("file", ⟨"a b.docx"⟩)]⟩ []).1 =
      App.ApiResponse.pdfAttachment "a_b.pdf" "application/pdf"
    ∧ "a_b.pdf" ≠ pyStemStr "a b.docx" ++ ".pdf" := by
  constructor
  · rfl
  · decide

/-- C7 (amended): every successful API conversion is served with status
200 and content type application/pdf under the attachment name formed from
the sanitized filename stem followed by .pdf; for the upload Report.DOCX
this name is Report.pdf. -/
theorem claim_C7_attachment_name (b : LoBehavior) (delFail : String → Bool)
    (uuid : String) (req : App.Request) (fs : FS) (file : App.UploadedFile)
    (h1 : List.lookup "file" req.files = some file)
    (h2 : file.filename ≠ "") (h3 : App.allowed_file file.filename = true)
    (hrt : b.runtime ≤ 120) (hrc : b.returncode = 0) (hpo : b.producesOutput = true) :
    (App.api_convert_docx_to_pdf b delFail uuid req fs).1 =
      App.ApiResponse.pdfAttachment (App.api_pdf_filename (secure_filename file.filename))
        "application/pdf"
    ∧ (App.api_convert_docx_to_pdf b delFail uuid req fs).1.status = 200 := by
  have h := api_fst_success b delFail uuid req fs file h1 h2 h3 hrt hrc hpo
  refine ⟨h, ?_⟩
  rw [h]
  rfl

/-- Witness for C7 (amended): Report.DOCX yields attachment Report.pdf. -/
theorem claim_C7_attachment_name_witness :
    (App.api_convert_docx_to_pdf ⟨1, 0, "", true⟩ (fun _ => false) "u"
        ⟨[("file", ⟨"Report.DOCX"⟩)]⟩ []).1 =
      App.ApiResponse.pdfAttachment "Report.pdf" "application/pdf"
    ∧ (App.api_convert_docx_to_pdf ⟨1, 0, "", true⟩ (fun _ => false) "u"
        ⟨[("file", ⟨"Report.DOCX"⟩)]⟩ []).1.status = 200 := by
  have h := claim_C7_attachment_name ⟨1, 0, "", true⟩ (fun _ => false) "u"
    ⟨[("file", ⟨"Report.DOCX"⟩)]⟩ [] ⟨"Report.DOCX"⟩
    (by decide) (by decide) (by decide) (by decide) (by decide) (by decide)
  exact ⟨h.1.trans (by decide), h.2⟩

/-- C8 counterexample: two health probes at distinct instants return
different bodies, both reporting healthy, because the timestamp field
carries the current time; the bodies of two calls are not identical. -/
theorem claim_C8_counterexample :
    (App.health_check 0).1 ≠ (App.health_check 1).1
    ∧ (App.health_check 0).1.status = "healthy"
    ∧ (App.health_check 1).1.status = "healthy" := by decide

/-- C8 (amended): every health probe returns HTTP 200 with status healthy
and the fixed service name, plus the current timestamp; across any two
calls the status and service fields agree, only the timestamp varies, and
the handler consults no backend or filesystem state. -/
theorem claim_C8_health (t : Nat) :
    (App.health_check t).2 = 200
    ∧ (App.health_check t).1.status = "healthy"
    ∧ (App.health_check t).1.service = "docx-to-pdf-converter"
    ∧ (App.health_check t).1.timestamp = toString t
    ∧ (∀ s : Nat, (App.health_check t).1.status = (App.health_check s).1.status
        ∧ (App.health_check t).1.service = (App.health_check s).1.service) :=
  ⟨rfl, rfl, rfl, rfl, fun _ => ⟨rfl, rfl⟩⟩

/-- C9: on the API endpoint, a present file field with an empty filename
is rejected with exactly the same 400 invalid-file-type JSON body as a
disallowed extension; there is no distinct missing-filename message. -/
theorem claim_C9_empty_filename (b : LoBehavior) (delFail : String → Bool)
    (uuid : String) (req : App.Request) (fs : FS) (file : App.UploadedFile)
    (h1 : List.lookup "file" req.files = some file)
    (h2 : file.filename = "" ∨ App.allowed_file file.filename = false) :
    App.api_convert_docx_to_pdf b delFail uuid req fs =
      (App.ApiResponse.jsonError "Invalid file type. Only .docx files are accepted" 400, fs) := by
  unfold App.api_convert_docx_to_pdf
  rw [h1]
  dsimp only
  rw [if_pos (show (file.filename == "" || !App.allowed_file file.filename) = true by
    rcases h2 with h | h
    · simp [h]
    · simp [h])]

/-- Witness for C9: the empty filename and notes.txt receive the identical
response. -/
theorem claim_C9_empty_filename_witness :
    App.api_convert_docx_to_pdf ⟨1, 0, "", true⟩ (fun _ => false) "u"
        ⟨[("file", ⟨""⟩)]⟩ [] =
      (App.ApiResponse.jsonError "Invalid file type. Only .docx files are accepted" 400, [])
    ∧ App.api_convert_docx_to_pdf ⟨1, 0, "", true⟩ (fun _ => false) "u"
        ⟨[("file", ⟨"notes.txt"⟩)]⟩ [] =
      (App.ApiResponse.jsonError "Invalid file type. Only .docx files are accepted" 400, []) :=
  ⟨claim_C9_empty_filename ⟨1, 0, "", true⟩ (fun _ => false) "u"
      ⟨[("file", ⟨""⟩)]⟩ [] ⟨""⟩ (by decide) (Or.inl rfl),
   claim_C9_empty_filename ⟨1, 0, "", true⟩ (fun _ => false) "u"
      ⟨[("file", ⟨"notes.txt"⟩)]⟩ [] ⟨"notes.txt"⟩ (by decide) (Or.inr (by decide))⟩

/-- C10: allowed_file accepts a filename exactly when it contains a dot
and the text after the last dot, lowercased, is docx; in particular
evil.exe.docx and the bare .docx are accepted, while docx without a dot
and report.docx. with a trailing dot are rejected. -/
theorem claim_C10_allowed_file :
    (∀ f : String, App.allowed_file f = true ↔
        ∃ a b, f.data = a ++ '.' :: b ∧ '.' ∉ b ∧ pyLower b = "docx".data)
    ∧ App.allowed_file "evil.exe.docx" = true
    ∧ App.allowed_file ".docx" = true
    ∧ App.allowed_file "docx" = false
    ∧ App.allowed_file "report.docx." = false :=
  ⟨allowed_file_iff, by decide, by decide, by decide, by decide⟩

/-- Witness for C10: the characterization applied at the accepted name
.docx produces its last-dot decomposition. -/
theorem claim_C10_allowed_file_witness :
    ∃ a b, (".docx" : String).data = a ++ '.' :: b ∧ '.' ∉ b ∧ pyLower b = "docx".data :=
  (claim_C10_allowed_file.1 ".docx").mp (by decide)

end DocToPdf
